import Mathlib

/-!
Shallow embedding of the session state machine in `src/st/src/gummy.rs`:
the phase-typed `Gummy` client (Closed / Connected / Converting / Finished),
its control messages, and the per-frame folding of `result-generated`
events into the ordered transcription accumulator.

Conventions of the embedding:
* JSON values are modelled by the inductive `Json`; indexing follows the
  semantics of the Rust `serde_json` crate (indexing a `Value` with a
  missing key yields `null`; indexing a `Map` with a missing key aborts).
* Fallible Rust code (functions returning `Result`) is modelled by `Res`:
  `Res.ok` is `Ok`, `Res.err` is an `Err` returned to the caller, and
  `Res.fatal` is a process abort (`unwrap` / `expect` on `None`).
* The websocket reader is modelled as a `List Frame`; the empty list means
  the channel yields no further frame (the stream is closed).
* The fresh task id produced by `uuid::Uuid::new_v4()` is passed in as an
  explicit parameter, since it is the only nondeterminism in the code.
* Writes to the socket are assumed to succeed; only the read side is
  modelled, which is what the claims are about.
-/

/-- JSON values, as used through `serde_json::Value` in the source. -/
inductive Json where
  | null : Json
  | bool : Bool → Json
  | num : Int → Json
  | str : String → Json
  | arr : List Json → Json
  | obj : List (String × Json) → Json

/-- Indexing a `serde_json::Value` with a string key: on an object it
returns the field value or `null` when absent; on any other value it
returns `null` (the crate never panics here). -/
def Json.idxS : Json → String → Json
  | .obj fields, k => (fields.lookup k).getD .null
  | _, _ => .null

/-- Indexing a `serde_json::Value` with an integer: on an array it returns
the element or `null` when out of range; on any other value `null`. -/
def Json.idxN : Json → Nat → Json
  | .arr xs, n => xs.getD n .null
  | _, _ => .null

/-- `Value::as_str`. -/
def Json.as_str : Json → Option String
  | .str s => some s
  | _ => none

/-- `Value::as_u64`: an integer number that is not negative. -/
def Json.as_u64 : Json → Option Nat
  | .num n => if 0 ≤ n then some n.toNat else none
  | _ => none

/-- `Value::as_bool`. -/
def Json.as_bool : Json → Option Bool
  | .bool b => some b
  | _ => none

/-- `Value::as_object`, yielding the field list. -/
def Json.as_object : Json → Option (List (String × Json))
  | .obj fields => some fields
  | _ => none

/-- Outcome of running a fallible piece of the Rust code: `ok` and `err`
are the two `Result` constructors, while `fatal` records a process abort
coming from `unwrap`/`expect` on a missing value. -/
inductive Res (α : Type) where
  | ok : α → Res α
  | err : String → Res α
  | fatal : String → Res α
deriving Repr, DecidableEq

/-- Sequencing of fallible steps; `err` and `fatal` both short-circuit. -/
def Res.bind {α β : Type} : Res α → (α → Res β) → Res β
  | .ok a, f => f a
  | .err e, _ => .err e
  | .fatal e, _ => .fatal e

instance : Monad Res where
  pure := Res.ok
  bind := Res.bind

/-- Mapping over the `ok` value. -/
def Res.map {α β : Type} (f : α → β) : Res α → Res β
  | .ok a => .ok (f a)
  | .err e => .err e
  | .fatal e => .fatal e

/-- Whether the outcome is an `Err` returned to the caller. -/
def Res.isErr {α : Type} : Res α → Bool
  | .err _ => true
  | _ => false

/-- Whether the outcome is `Ok`. -/
def Res.isOk {α : Type} : Res α → Bool
  | .ok _ => true
  | _ => false

/-- Whether the outcome is a process abort. -/
def Res.isFatal {α : Type} : Res α → Bool
  | .fatal _ => true
  | _ => false

/-- `Option::ok_or_else(..)?`: a missing value becomes an `Err` returned
to the caller. -/
def okOr {α : Type} : Option α → String → Res α
  | some a, _ => .ok a
  | none, msg => .err msg

/-- `Option::expect(msg)` (and `Option::unwrap`): a missing value aborts
the process. -/
def expectO {α : Type} : Option α → String → Res α
  | some a, _ => .ok a
  | none, msg => .fatal msg

/-- Indexing a `serde_json::Map` (the result of `as_object`) with a
missing key aborts the process, unlike indexing a `Value`. -/
def mapIdx (fields : List (String × Json)) (k : String) : Res Json :=
  match fields.lookup k with
  | some v => .ok v
  | none => .fatal "no entry found for key"

/-- One accumulator entry (`struct Transcription` in the source). -/
structure Transcription where
  begin_time : Nat
  end_time : Nat
  text : String
  translated_text : Option String
deriving Repr, DecidableEq

/-- State carried by `Gummy<Converting>`: the active task id, the ordered
result accumulator and the `finished` flag (reader and writer handles are
not data). -/
structure ConvState where
  task_id : String
  result : List Transcription
  finished : Bool
deriving Repr, DecidableEq

/-- State carried by `Gummy<Finished>`. -/
structure FinState where
  task_id : String
  result : List Transcription
deriving Repr, DecidableEq

/-- `self.api_key` is the only data of `Gummy<Closed>`. -/
structure GummyClosed where
  api_key : String
deriving Repr, DecidableEq

/-- `Gummy::close`, defined in the `impl Gummy` block: since the struct
declares `Gummy<State = Closed>`, that block implements `Gummy<Closed>`
only, so `close` consumes a Closed client and rebuilds a Closed client
with the same api key. -/
def Gummy.close (g : GummyClosed) : GummyClosed :=
  { api_key := g.api_key }

/-- The phases of the session, one per state type of the source. -/
inductive Phase where
  | Closed
  | Connected
  | Converting
  | Finished
deriving Repr, DecidableEq

/-- The methods available on `Gummy<S>` in each phase `S`, read off the
`impl` blocks of the source: `new` and `close` live in `impl Gummy`,
which by the default type parameter `State = Closed` is
`impl Gummy<Closed>`; `connect` in `impl Gummy<Closed>`; `start` in
`impl Gummy<Connected>`; `send`, `receive`, `finish` in
`impl Gummy<Converting>`; `start` and `get_result` in
`impl Gummy<Finished>`. -/
def methodsOf : Phase → List String
  | .Closed => ["new", "close", "connect"]
  | .Connected => ["start"]
  | .Converting => ["send", "receive", "finish"]
  | .Finished => ["start", "get_result"]

/-- The header block of the outbound control messages. -/
structure Header where
  task_id : String
  action : String
  streaming : String
deriving Repr, DecidableEq

/-- `request::Parameters`. -/
structure Parameters where
  sample_rate : Nat
  format : String
  source_language : Option String
  transcription_enabled : Bool
  translation_enabled : Bool
  translation_target_languages : List String
deriving Repr, DecidableEq

/-- `request::Payload` (the empty `input` field is omitted). -/
structure Payload where
  model : Option String
  parameters : Option Parameters
  task : Option String
  task_group : Option String
  function : Option String
deriving Repr, DecidableEq

/-- `request::StartMessage`. -/
structure StartMessage where
  header : Header
  payload : Payload
deriving Repr, DecidableEq

/-- `StartMessage::new`: the fresh id from `uuid::Uuid::new_v4()` is the
`uuid` parameter; absent options default to `pcm`, `48000`, `auto`, `zh`. -/
def StartMessage.new (uuid : String) (format : Option String)
    (sample_rate : Option Nat) (source_language : Option String)
    (target_language : Option String) : StartMessage :=
  let format := format.getD "pcm"
  let sample_rate := sample_rate.getD 48000
  let source_language := source_language.getD "auto"
  let target_language := target_language.getD "zh"
  { header := { task_id := uuid, action := "run-task", streaming := "duplex" }
    payload :=
      { model := some "gummy-realtime-v1"
        parameters := some
          { sample_rate := sample_rate
            format := format
            source_language := some source_language
            transcription_enabled := true
            translation_enabled := true
            translation_target_languages := [target_language] }
        task := some "asr"
        task_group := some "audio"
        function := some "recognition" } }

/-- `StartMessage::id`. -/
def StartMessage.id (m : StartMessage) : String :=
  m.header.task_id

/-- One item yielded by the websocket reader. `text` carries a text frame
whose body is valid JSON, `badText` a text frame whose body fails JSON
parsing, `binary` any other successfully received message kind (ignored
by every loop), `errFrame` a transport level receive error. -/
inductive Frame where
  | text : Json → Frame
  | badText : Frame
  | binary : Frame
  | errFrame : String → Frame

/-- The common parse of `payload.output.transcription` in `receive` and in
the drain loop of `finish` (the two code blocks are verbatim identical
here): `as_object().unwrap()` then the five required fields, each read by
a map index followed by `unwrap`/`expect`. Yields
`(sentence_id, begin_time, end_time, text, sentence_end)`. -/
def parseTranscriptionFields (response : Json) :
    Res (Nat × Nat × Nat × String × Bool) := do
  let tj ← expectO ((response.idxS "payload" |>.idxS "output"
      |>.idxS "transcription").as_object) "called unwrap on None"
  let sidJ ← mapIdx tj "sentence_id"
  let sentence_id ← expectO sidJ.as_u64 "called unwrap on None"
  let btJ ← mapIdx tj "begin_time"
  let begin_time ← expectO btJ.as_u64 "called unwrap on None"
  let etJ ← mapIdx tj "end_time"
  let end_time ← expectO etJ.as_u64 "called unwrap on None"
  let txJ ← mapIdx tj "text"
  let text ← expectO txJ.as_str "called unwrap on None"
  let seJ ← mapIdx tj "sentence_end"
  let sentence_end ← expectO seJ.as_bool "Missing sentence_end in response"
  pure (sentence_id, begin_time, end_time, text, sentence_end)

/-- Translation extraction in `receive`:
`response["payload"]["output"]["translation"].as_object()` and, when the
object is present, its `text` field via map index and `unwrap`. -/
def extractTranslationReceive (response : Json) : Res (Option String) :=
  match (response.idxS "payload" |>.idxS "output"
      |>.idxS "translation").as_object with
  | some translation => do
      let tJ ← mapIdx translation "text"
      let t ← expectO tJ.as_str "called unwrap on None"
      pure (some t)
  | none => pure none

/-- Translation extraction in the drain loop of `finish`:
`response["payload"]["output"]["translations"][0].as_object()` — note the
key `translations` and the list indexing, unlike `receive`. -/
def extractTranslationFinish (response : Json) : Res (Option String) :=
  match ((response.idxS "payload" |>.idxS "output"
      |>.idxS "translations").idxN 0).as_object with
  | some translation => do
      let tJ ← mapIdx translation "text"
      let t ← expectO tJ.as_str "called unwrap on None"
      pure (some t)
  | none => pure none

/-- The accumulator fold, `match self.state.result.get_mut(sentence_id)`:
an addressed existing entry has all four fields overwritten in place,
otherwise the new entry is pushed at the end. -/
def applyUpdate (result : List Transcription) (sentence_id : Nat)
    (t : Transcription) : List Transcription :=
  if sentence_id < result.length then result.set sentence_id t
  else result ++ [t]

/-- Processing of one parsed text frame inside `receive` (lines 282 to 335
of the source): extract `header.event` with `ok_or_else` and
`header.task_id` with `expect`; on a matching `result-generated` event
parse the transcription fields, extract the translation under the
`translation` key and fold via `applyUpdate`; on a matching
`task-finished` event set the `finished` flag. -/
def receiveProcessText (st : ConvState) (response : Json) : Res ConvState := do
  let event ← okOr (response.idxS "header" |>.idxS "event").as_str
      "Invalid response format"
  let task_id ← expectO (response.idxS "header" |>.idxS "task_id").as_str
      "Missing task_id in response"
  let st1 ←
    if event == "result-generated" && task_id == st.task_id then do
      let (sentence_id, begin_time, end_time, text, _sentence_end) ←
        parseTranscriptionFields response
      let translated_text ← extractTranslationReceive response
      let entry : Transcription :=
        { begin_time := begin_time, end_time := end_time, text := text
          translated_text := translated_text }
      pure { st with result := applyUpdate st.result sentence_id entry }
    else pure st
  if event == "task-finished" && task_id == st.task_id then
    pure { st1 with finished := true }
  else pure st1

/-- Processing of one parsed text frame inside the drain loop of `finish`
(lines 360 to 415 of the source). Identical to the `receive` block except
that the translation is extracted under `translations[0]`. The returned
Bool is true when a matching `task-finished` arrived (the loop then sets
`finished` and breaks). -/
def finishProcessText (task_id : String) (result : List Transcription)
    (response : Json) : Res (List Transcription × Bool) := do
  let event ← okOr (response.idxS "header" |>.idxS "event").as_str
      "Invalid response format"
  let tid ← expectO (response.idxS "header" |>.idxS "task_id").as_str
      "Missing task_id in response"
  let result1 ←
    if event == "result-generated" && tid == task_id then do
      let (sentence_id, begin_time, end_time, text, _sentence_end) ←
        parseTranscriptionFields response
      let translated_text ← extractTranslationFinish response
      let entry : Transcription :=
        { begin_time := begin_time, end_time := end_time, text := text
          translated_text := translated_text }
      pure (applyUpdate result sentence_id entry)
    else pure result
  if event == "task-finished" && tid == task_id then
    pure (result1, true)
  else
    pure (result1, false)

/-- `Gummy<Converting>::receive`: when `finished` is already set, return
the snapshot without touching the reader; otherwise read at most one
frame (none when the stream has ended), process a text frame, ignore a
non-text frame, turn a transport error into an `Err`, and return the
snapshot. -/
def receive (st : ConvState) (stream : List Frame) :
    Res (List Transcription × ConvState × List Frame) :=
  if st.finished then .ok (st.result, st, stream)
  else
    match stream with
    | [] => .ok (st.result, st, [])
    | frame :: rest =>
      match frame with
      | .text response =>
        match receiveProcessText st response with
        | .ok st1 => .ok (st1.result, st1, rest)
        | .err e => .err e
        | .fatal e => .fatal e
      | .badText => .err "JSON parse error"
      | .binary => .ok (st.result, st, rest)
      | .errFrame e => .err ("Error receiving message: " ++ e)

/-- The `while let Some(message) = reader.next()` loop of
`Gummy<Converting>::finish`: folds every matching `result-generated`
frame, breaks on a matching `task-finished` (Bool true), and — when the
stream ends without one — falls out of the loop (Bool false) rather than
reporting an error. -/
def finishDrain (task_id : String) (result : List Transcription) :
    List Frame → Res (List Transcription × Bool × List Frame)
  | [] => .ok (result, false, [])
  | frame :: rest =>
    match frame with
    | .text response =>
      match finishProcessText task_id result response with
      | .ok (result1, true) => .ok (result1, true, rest)
      | .ok (result1, false) => finishDrain task_id result1 rest
      | .err e => .err e
      | .fatal e => .fatal e
    | .badText => .err "JSON parse error"
    | .binary => finishDrain task_id result rest
    | .errFrame e => .err ("Error receiving message: " ++ e)

/-- `Gummy<Converting>::finish`: when `finished` was already observed, no
frame is sent or read; otherwise the FinishRequest is sent and the drain
loop runs. Either way the Finished state keeps the task id and the
accumulated result. -/
def finish (st : ConvState) (stream : List Frame) :
    Res (FinState × List Frame) :=
  if st.finished then .ok ({ task_id := st.task_id, result := st.result }, stream)
  else
    match finishDrain st.task_id st.result stream with
    | .ok (result, _finished, rest) =>
      .ok ({ task_id := st.task_id, result := result }, rest)
    | .err e => .err e
    | .fatal e => .fatal e

/-- The acknowledgement loop of `Gummy<Connected>::start`: read frames,
break on a `task-started` event whose task id equals the id of the
StartMessage just sent, report a transport error as `Err`, abort on a
frame without task id — and, when the stream ends without the
acknowledgement, fall out of the loop successfully. -/
def startAckDrain (want_id : String) : List Frame → Res (List Frame)
  | [] => .ok []
  | frame :: rest =>
    match frame with
    | .text response =>
      match (response.idxS "header" |>.idxS "event").as_str with
      | none => .err "Invalid response format"
      | some event =>
        match (response.idxS "header" |>.idxS "task_id").as_str with
        | none => .fatal "Missing task_id in response"
        | some task_id_response =>
          if event == "task-started" && task_id_response == want_id then
            .ok rest
          else startAckDrain want_id rest
    | .badText => .err "JSON parse error"
    | .binary => startAckDrain want_id rest
    | .errFrame e => .err ("Error receiving message: " ++ e)

/-- `Gummy<Connected>::start`: build and send a StartMessage (its fresh
uuid is the `uuid` parameter), run the acknowledgement loop, then build
the Converting state with the new task id, an empty accumulator and
`finished = false`. -/
def connectedStart (uuid : String) (format : Option String)
    (sample_rate : Option Nat) (source_language : Option String)
    (target_language : Option String) (stream : List Frame) :
    Res (ConvState × List Frame) :=
  let start_message :=
    StartMessage.new uuid format sample_rate source_language target_language
  match startAckDrain start_message.id stream with
  | .ok rest =>
    .ok ({ task_id := start_message.id, result := [], finished := false }, rest)
  | .err e => .err e
  | .fatal e => .fatal e

/-- `Gummy<Finished>::start`: build and send a StartMessage carrying the
fresh uuid, but build the Converting state with
`task_id: self.state.task_id.clone()` — the id of the previous task. The
sent message is returned alongside the new state, being observable on the
wire. -/
def finishedStart (st : FinState) (uuid : String) (format : Option String)
    (sample_rate : Option Nat) (source_language : Option String)
    (target_language : Option String) : StartMessage × ConvState :=
  let message :=
    StartMessage.new uuid format sample_rate source_language target_language
  (message, { task_id := st.task_id, result := [], finished := false })

/-- `Gummy<Finished>::get_result`. -/
def FinState.get_result (st : FinState) : List Transcription :=
  st.result

/-- Header block of an inbound event frame. -/
def headerJson (event tid : String) : Json :=
  .obj [("event", .str event), ("task_id", .str tid)]

/-- The transcription object of a `result-generated` frame. -/
def transcriptionJson (sid bt et : Nat) (txt : String) (se : Bool) : Json :=
  .obj [("sentence_id", .num (Int.ofNat sid)),
        ("begin_time", .num (Int.ofNat bt)),
        ("end_time", .num (Int.ofNat et)),
        ("text", .str txt),
        ("sentence_end", .bool se)]

/-- A full `result-generated` frame for task `tid`: the given transcription
fields plus any extra entries (such as a translation) inside
`payload.output`. -/
def resultFrame (tid : String) (sid bt et : Nat) (txt : String) (se : Bool)
    (extra : List (String × Json)) : Json :=
  .obj [("header", headerJson "result-generated" tid),
        ("payload", .obj [("output", .obj
          (("transcription", transcriptionJson sid bt et txt se) :: extra))])]

/-- A frame with only an event header (as `task-started`/`task-finished`
frames have). -/
def eventFrame (event tid : String) : Json :=
  .obj [("header", headerJson event tid)]

/-- A frame whose header carries an event kind but no task id. -/
def noTaskIdFrame : Json :=
  .obj [("header", .obj [("event", .str "task-started")])]

/-- A frame carrying only `payload.output` with the given fields, used to
probe the translation extraction in isolation. -/
def outputOnlyJson (fields : List (String × Json)) : Json :=
  .obj [("payload", .obj [("output", .obj fields)])]

/-- A `result-generated` frame for task `tid` whose transcription object
holds an arbitrary field list, used to probe frames with missing or
wrongly-typed transcription fields. -/
def resultFrameWithTj (tid : String) (tj : List (String × Json)) : Json :=
  .obj [("header", headerJson "result-generated" tid),
        ("payload", .obj [("output", .obj [("transcription", .obj tj)])])]

/-! ## Basic facts about `Res` sequencing -/

/-- Do-notation sequencing on `Res` is `Res.bind`. -/
theorem resBind_def {α β : Type} (x : Res α) (f : α → Res β) :
    x >>= f = Res.bind x f := rfl

/-- Do-notation `pure` on `Res` is `Res.ok`. -/
theorem resPure_def {α : Type} (a : α) : (pure a : Res α) = Res.ok a := rfl

/-- Binding after an `ok` runs the continuation. -/
theorem resBind_ok {α β : Type} (a : α) (f : α → Res β) :
    Res.bind (.ok a) f = f a := rfl

/-- Binding after an `err` short-circuits. -/
theorem resBind_err {α β : Type} (e : String) (f : α → Res β) :
    Res.bind (.err e) f = .err e := rfl

/-- Binding after an abort short-circuits. -/
theorem resBind_fatal {α β : Type} (e : String) (f : α → Res β) :
    Res.bind (.fatal e) f = .fatal e := rfl

/-- Inverting a successful bind. -/
theorem resBind_eq_ok {α β : Type} {x : Res α} {f : α → Res β} {b : β}
    (h : x >>= f = .ok b) : ∃ a, x = .ok a ∧ f a = .ok b := by
  cases x with
  | ok a => exact ⟨a, rfl, h⟩
  | err e => exact absurd h (by simp [resBind_def, Res.bind])
  | fatal e => exact absurd h (by simp [resBind_def, Res.bind])

/-! ## C1 -/

/-- C1 counterexample: a `result-generated` frame with no translation
payload, addressing existing index 0 whose entry holds a previously
received translation, makes `receive` overwrite the entry with
`translated_text = none`: the recorded translation is cleared, not kept. -/
theorem C1_translation_cleared_cex :
    receive ⟨"T", [⟨1, 2, "old", some "vieja"⟩], false⟩
        [Frame.text (resultFrame "T" 0 5 9 "new" false [])] =
      .ok ([⟨5, 9, "new", none⟩], ⟨"T", [⟨5, 9, "new", none⟩], false⟩, []) ∧
    ((some "vieja" : Option String) == none) = false :=
  ⟨rfl, rfl⟩

/-! ## C2 -/

/-- C2 counterexample: when the frame stream ends (channel closed) before
any acknowledgement, `start` from Connected returns `Ok` with a
Converting-phase session, and `finish` from Converting returns `Ok` with
a Finished session — neither returns an error. -/
theorem C2_start_ok_on_stream_end_cex :
    connectedStart "T1" none none none none [] =
      .ok (⟨"T1", [], false⟩, []) ∧
    (connectedStart "T1" none none none none []).isErr = false ∧
    finish ⟨"T2", [⟨1, 2, "a", none⟩], false⟩ [] =
      .ok (⟨"T2", [⟨1, 2, "a", none⟩]⟩, []) ∧
    (finish ⟨"T2", [⟨1, 2, "a", none⟩], false⟩ []).isErr = false :=
  ⟨rfl, rfl, rfl, rfl⟩

/-- C2 amended: when the stream ends before a matching task-started or
task-finished event, the blocking loops of `start` and `finish` fall out
and both calls return `Ok` (a Converting session with the fresh id and an
empty accumulator, respectively a Finished session keeping the
accumulated result); only a transport-level receive error makes them
return an error. -/
theorem C2_stream_end_returns_ok_amended :
    (∀ uuid format sr sl tl,
        connectedStart uuid format sr sl tl [] =
          .ok (⟨(StartMessage.new uuid format sr sl tl).id, [], false⟩, [])) ∧
    (∀ tid r, finish ⟨tid, r, false⟩ [] = .ok (⟨tid, r⟩, [])) ∧
    (∀ uuid format sr sl tl e rest,
        connectedStart uuid format sr sl tl (Frame.errFrame e :: rest) =
          .err ("Error receiving message: " ++ e)) ∧
    (∀ tid r e rest,
        finish ⟨tid, r, false⟩ (Frame.errFrame e :: rest) =
          .err ("Error receiving message: " ++ e)) := by
  refine ⟨?_, ?_, ?_, ?_⟩ <;> intros <;> rfl

/-! ## C3 -/

/-- C3 counterexample: `start` from the Finished phase sends a
StartRequest carrying the fresh id `NEW` but builds the Converting
session with the previous task id `OLD`: the active id does not equal the
id of the StartRequest just sent. -/
theorem C3_finished_start_keeps_old_id_cex :
    (finishedStart ⟨"OLD", []⟩ "NEW" none none none none).2.task_id = "OLD" ∧
    (finishedStart ⟨"OLD", []⟩ "NEW" none none none none).1.id = "NEW" ∧
    (("OLD" : String) == "NEW") = false :=
  ⟨rfl, rfl, rfl⟩

/-- C3 amended: a fresh id is generated and sent on every start, and
`start` from Connected does make the new Converting session carry the id
of the StartRequest just sent; but `start` from Finished keeps the
previous task id as the active id while sending the fresh one. -/
theorem C3_active_task_id_amended :
    (∀ uuid format sr sl tl stream st1 rest,
        connectedStart uuid format sr sl tl stream = .ok (st1, rest) →
        st1.task_id = (StartMessage.new uuid format sr sl tl).id ∧
        st1.result = [] ∧ st1.finished = false) ∧
    (∀ fin uuid format sr sl tl,
        (finishedStart fin uuid format sr sl tl).1.id = uuid ∧
        (finishedStart fin uuid format sr sl tl).2 =
          ⟨fin.task_id, [], false⟩) := by
  constructor
  · intro uuid format sr sl tl stream st1 rest h
    unfold connectedStart at h
    dsimp only [] at h
    cases hd : startAckDrain
        (StartMessage.new uuid format sr sl tl).id stream with
    | ok rest1 =>
      rw [hd] at h
      cases h
      exact ⟨rfl, rfl, rfl⟩
    | err e => rw [hd] at h; cases h
    | fatal e => rw [hd] at h; cases h
  · intro fin uuid format sr sl tl
    exact ⟨rfl, rfl⟩

/-- C3 witness: the amended theorem applied to a concrete run whose
stream acknowledges task `N`. -/
theorem C3_active_task_id_witness :
    (ConvState.mk "N" [] false).task_id =
        (StartMessage.new "N" none none none none).id ∧
    (ConvState.mk "N" [] false).result = [] ∧
    (ConvState.mk "N" [] false).finished = false :=
  C3_active_task_id_amended.1 "N" none none none none
    [Frame.text (eventFrame "task-started" "N")] ⟨"N", [], false⟩ [] rfl

/-! ## C4 -/

/-- C4 counterexample: a `result-generated` frame with sentence index 5
arriving on an empty accumulator is neither rejected nor reported: the
entry is silently pushed at position 0, a different position than 5. -/
theorem C4_gap_index_appends_cex :
    receive ⟨"T", [], false⟩
        [Frame.text (resultFrame "T" 5 0 9 "gap" false [])] =
      .ok ([⟨0, 9, "gap", none⟩], ⟨"T", [⟨0, 9, "gap", none⟩], false⟩, []) ∧
    (receive ⟨"T", [], false⟩
        [Frame.text (resultFrame "T" 5 0 9 "gap" false [])]).isErr = false ∧
    applyUpdate [] 5 ⟨0, 9, "gap", none⟩ = [⟨0, 9, "gap", none⟩] :=
  ⟨rfl, rfl, rfl⟩

/-- C4 amended: applying an update with `idx == length` appends, with
`idx < length` overwrites in place, and with `idx > length` silently
appends the entry at the current end (position `length`), not at `idx`
and without any error. -/
theorem C4_apply_update_amended :
    (∀ (r : List Transcription) (t : Transcription),
        applyUpdate r r.length t = r ++ [t]) ∧
    (∀ (r : List Transcription) (i : Nat) (t : Transcription),
        i < r.length → applyUpdate r i t = r.set i t) ∧
    (∀ (r : List Transcription) (i : Nat) (t : Transcription),
        r.length < i → applyUpdate r i t = r ++ [t]) := by
  refine ⟨?_, ?_, ?_⟩
  · intro r t; simp [applyUpdate]
  · intro r i t h; simp [applyUpdate, h]
  · intro r i t h
    simp [applyUpdate, Nat.not_lt.mpr (Nat.le_of_lt h)]

/-- C4 witness: the amended theorem applied at concrete inputs, an
in-range overwrite and an out-of-range append. -/
theorem C4_apply_update_witness :
    applyUpdate [⟨1, 2, "a", none⟩] 0 ⟨3, 4, "b", none⟩ =
        [(⟨1, 2, "a", none⟩ : Transcription)].set 0 ⟨3, 4, "b", none⟩ ∧
    applyUpdate [] 5 (⟨0, 9, "gap", none⟩ : Transcription) =
        [] ++ [(⟨0, 9, "gap", none⟩ : Transcription)] :=
  ⟨C4_apply_update_amended.2.1 [⟨1, 2, "a", none⟩] 0 ⟨3, 4, "b", none⟩
      (by decide),
   C4_apply_update_amended.2.2 [] 5 ⟨0, 9, "gap", none⟩ (by decide)⟩

/-! ## C5 -/

/-- C5 counterexample: on the same empty accumulator and the same frame —
a matching `result-generated` event whose payload carries
`payload.output.translation` as an object — the fold inside `receive`
records the translation while the fold inside the drain loop of `finish`
records `none`: the two paths are not the same function. -/
theorem C5_fold_mismatch_cex :
    receiveProcessText ⟨"T", [], false⟩
        (resultFrame "T" 0 0 10 "hello" false
          [("translation", .obj [("text", .str "hola")])]) =
      .ok ⟨"T", [⟨0, 10, "hello", some "hola"⟩], false⟩ ∧
    finishProcessText "T" []
        (resultFrame "T" 0 0 10 "hello" false
          [("translation", .obj [("text", .str "hola")])]) =
      .ok ([⟨0, 10, "hello", none⟩], false) ∧
    ((some "hola" : Option String) == none) = false :=
  ⟨rfl, rfl, rfl⟩

/-! ## C6 -/

/-- C6 counterexample: a text frame of the recognized kind `task-started`
whose header lacks the required `task_id` field makes `receive` (and the
acknowledgement loop of `start`) abort the process through `expect`
instead of returning an error result. -/
theorem C6_missing_task_id_aborts_cex :
    receive ⟨"T", [], false⟩ [Frame.text noTaskIdFrame] =
      .fatal "Missing task_id in response" ∧
    (receive ⟨"T", [], false⟩ [Frame.text noTaskIdFrame]).isErr = false ∧
    connectedStart "T1" none none none none [Frame.text noTaskIdFrame] =
      .fatal "Missing task_id in response" ∧
    (connectedStart "T1" none none none none
        [Frame.text noTaskIdFrame]).isErr = false :=
  ⟨rfl, rfl, rfl, rfl⟩

/-! ## C7 -/

/-- C7 counterexample: `receive` does not accept the list-of-one shape (a
translation present as `payload.output.translation = [..]` is dropped),
and the drain loop of `finish` does not accept the single-object shape —
it does not even read the `translation` key, only `translations[0]`. -/
theorem C7_translation_shapes_cex :
    extractTranslationReceive
        (outputOnlyJson
          [("translation", .arr [.obj [("text", .str "hola")]])]) =
      .ok none ∧
    extractTranslationFinish
        (outputOnlyJson [("translations", .obj [("text", .str "hola")])]) =
      .ok none ∧
    extractTranslationFinish
        (outputOnlyJson [("translation", .obj [("text", .str "hola")])]) =
      .ok none ∧
    receiveProcessText ⟨"T", [], false⟩
        (resultFrame "T" 0 0 10 "hi" false
          [("translation", .arr [.obj [("text", .str "hola")]])]) =
      .ok ⟨"T", [⟨0, 10, "hi", none⟩], false⟩ :=
  ⟨rfl, rfl, rfl, rfl⟩

/-- C7 amended: each path accepts exactly one shape. `receive` extracts
the translation only when `payload.output.translation` is a single
object, yielding `none` on the list shape; the drain loop of `finish`
extracts it only when `payload.output.translations` is a list whose first
element is such an object, yielding `none` when that key holds a single
object. -/
theorem C7_translation_shapes_amended :
    ∀ s : String,
      extractTranslationReceive
          (outputOnlyJson [("translation", .obj [("text", .str s)])]) =
        .ok (some s) ∧
      extractTranslationReceive
          (outputOnlyJson [("translation", .arr [.obj [("text", .str s)]])]) =
        .ok none ∧
      extractTranslationFinish
          (outputOnlyJson
            [("translations", .arr [.obj [("text", .str s)]])]) =
        .ok (some s) ∧
      extractTranslationFinish
          (outputOnlyJson [("translations", .obj [("text", .str s)])]) =
        .ok none := by
  intro s
  exact ⟨rfl, rfl, rfl, rfl⟩

/-! ## C8 -/

/-- C8 counterexample: no `close` method exists in the Connected,
Converting or Finished phases — the `impl Gummy` block that defines
`close` is, by the default type parameter, an impl for `Gummy<Closed>`
only. -/
theorem C8_close_not_in_all_phases_cex :
    (methodsOf Phase.Connected).contains "close" = false ∧
    (methodsOf Phase.Converting).contains "close" = false ∧
    (methodsOf Phase.Finished).contains "close" = false :=
  ⟨rfl, rfl, rfl⟩

/-- C8 amended: `close` is available only in the Closed phase, where it
rebuilds the same Closed client; no other phase offers a `close`
operation (their transports are released only by dropping the value). -/
theorem C8_close_only_closed_amended :
    (methodsOf Phase.Closed).contains "close" = true ∧
    (∀ p, (methodsOf p).contains "close" = true → p = Phase.Closed) ∧
    (∀ g, Gummy.close g = g) := by
  refine ⟨rfl, ?_, ?_⟩
  · intro p h
    cases p
    · rfl
    · exact absurd h (by decide)
    · exact absurd h (by decide)
    · exact absurd h (by decide)
  · intro g
    rfl

/-- C8 witness: the amended theorem applied at the Closed phase and a
concrete client. -/
theorem C8_close_only_closed_witness :
    Phase.Closed = Phase.Closed ∧
    Gummy.close ⟨"key"⟩ = (⟨"key"⟩ : GummyClosed) :=
  ⟨C8_close_only_closed_amended.2.1 Phase.Closed (by decide),
   C8_close_only_closed_amended.2.2 ⟨"key"⟩⟩

/-! ## C9 -/

/-- C9: once the internal finished flag is true, `receive` returns the
current ordered snapshot without reading any frame from the stream, and
leaves the state unchanged — so repeated calls return the same snapshot;
likewise a call that finds no ready frame returns the snapshot
unchanged. -/
theorem C9_receive_idempotent_after_finished :
    (∀ st stream, st.finished = true →
        receive st stream = .ok (st.result, st, stream)) ∧
    (∀ st, receive st [] = .ok (st.result, st, [])) := by
  constructor
  · intro st stream h
    simp [receive, h]
  · intro st
    cases hf : st.finished <;> simp [receive, hf]

/-- C9 witness: the theorem applied to a finished Converting state with a
nonempty pending stream, which is returned untouched. -/
theorem C9_receive_idempotent_witness :
    receive ⟨"T", [⟨1, 2, "a", none⟩], true⟩ [Frame.binary] =
      .ok ([⟨1, 2, "a", none⟩], ⟨"T", [⟨1, 2, "a", none⟩], true⟩,
        [Frame.binary]) :=
  C9_receive_idempotent_after_finished.1
    ⟨"T", [⟨1, 2, "a", none⟩], true⟩ [Frame.binary] rfl

/-- C1 amended: a matching `result-generated` update overwrites the
addressed entry wholesale — the stored `translated_text` is exactly the
translation extracted from this update, which is `none` when the payload
carries no translation object; a transcription-only revision therefore
replaces (clears) a previously recorded translation rather than keeping
it. -/
theorem C1_update_overwrites_translation_amended :
    (∀ (r : List Transcription) (i : Nat) (t : Transcription),
        i < r.length → (applyUpdate r i t)[i]? = some t) ∧
    (∀ (st : ConvState) (j : Json) (sid bt et : Nat) (tx : String)
        (se : Bool),
        (j.idxS "header" |>.idxS "event").as_str = some "result-generated" →
        (j.idxS "header" |>.idxS "task_id").as_str = some st.task_id →
        parseTranscriptionFields j = .ok (sid, bt, et, tx, se) →
        (j.idxS "payload" |>.idxS "output" |>.idxS "translation").as_object
          = none →
        receiveProcessText st j =
          .ok { st with
            result := applyUpdate st.result sid ⟨bt, et, tx, none⟩ }) := by
  constructor
  · intro r i t h
    simp [applyUpdate, h, List.getElem?_set_eq_of_lt]
  · intro st j sid bt et tx se hE hT hP hX
    have hne : (("result-generated" : String) == "task-finished") = false := rfl
    simp only [receiveProcessText, hE, hT, hP, hX, okOr, expectO,
      extractTranslationReceive, resBind_def, resBind_ok, resPure_def,
      beq_self_eq_true, Bool.and_self, if_true, hne, Bool.false_and,
      Bool.and_true]
    rfl

/-- C1 witness: the amended theorem applied to a concrete accumulator
holding a translation at index 0 and a concrete transcription-only
frame. -/
theorem C1_update_overwrites_translation_witness :
    (applyUpdate [⟨1, 2, "old", some "vieja"⟩] 0 ⟨5, 9, "new", none⟩)[0]? =
        some (⟨5, 9, "new", none⟩ : Transcription) ∧
    receiveProcessText ⟨"T", [⟨1, 2, "old", some "vieja"⟩], false⟩
        (resultFrame "T" 0 5 9 "new" false []) =
      .ok { task_id := "T"
            result :=
              applyUpdate [⟨1, 2, "old", some "vieja"⟩] 0 ⟨5, 9, "new", none⟩
            finished := false } :=
  ⟨C1_update_overwrites_translation_amended.1
      [⟨1, 2, "old", some "vieja"⟩] 0 ⟨5, 9, "new", none⟩ (by decide),
   C1_update_overwrites_translation_amended.2
      ⟨"T", [⟨1, 2, "old", some "vieja"⟩], false⟩
      (resultFrame "T" 0 5 9 "new" false []) 0 5 9 "new" false
      rfl rfl rfl rfl⟩

/-- C6 amended: a frame whose header lacks a string event kind is
surfaced as an error result in all three drive loops (`receive`, the
drain loop of `finish`, the acknowledgement loop of `start`); but every
other required field is read with `expect`/`unwrap` and a missing or
wrongly-typed value aborts the process instead of surfacing an error:
the task identifier (all three loops), and — on a matching
`result-generated` frame, where such a parse abort propagates to the
whole fold — the transcription object itself, the sentence index, the
begin and end times, the text, the sentence_end flag, and the text field
of a present translation object (both extractors). -/
theorem C6_malformed_field_handling_amended :
    (∀ (st : ConvState) (j : Json),
        (j.idxS "header" |>.idxS "event").as_str = none →
        receiveProcessText st j = .err "Invalid response format") ∧
    (∀ (tid : String) (r : List Transcription) (j : Json),
        (j.idxS "header" |>.idxS "event").as_str = none →
        finishProcessText tid r j = .err "Invalid response format") ∧
    (∀ (wid : String) (j : Json) (stream : List Frame),
        (j.idxS "header" |>.idxS "event").as_str = none →
        startAckDrain wid (Frame.text j :: stream) =
          .err "Invalid response format") ∧
    (∀ (st : ConvState) (j : Json) (e : String),
        (j.idxS "header" |>.idxS "event").as_str = some e →
        (j.idxS "header" |>.idxS "task_id").as_str = none →
        receiveProcessText st j = .fatal "Missing task_id in response") ∧
    (∀ (tid : String) (r : List Transcription) (j : Json) (e : String),
        (j.idxS "header" |>.idxS "event").as_str = some e →
        (j.idxS "header" |>.idxS "task_id").as_str = none →
        finishProcessText tid r j = .fatal "Missing task_id in response") ∧
    (∀ (wid : String) (j : Json) (stream : List Frame) (e : String),
        (j.idxS "header" |>.idxS "event").as_str = some e →
        (j.idxS "header" |>.idxS "task_id").as_str = none →
        startAckDrain wid (Frame.text j :: stream) =
          .fatal "Missing task_id in response") ∧
    (∀ (st : ConvState) (j : Json) (m : String),
        (j.idxS "header" |>.idxS "event").as_str = some "result-generated" →
        (j.idxS "header" |>.idxS "task_id").as_str = some st.task_id →
        parseTranscriptionFields j = .fatal m →
        receiveProcessText st j = .fatal m) ∧
    (∀ (tid : String) (r : List Transcription) (j : Json) (m : String),
        (j.idxS "header" |>.idxS "event").as_str = some "result-generated" →
        (j.idxS "header" |>.idxS "task_id").as_str = some tid →
        parseTranscriptionFields j = .fatal m →
        finishProcessText tid r j = .fatal m) ∧
    (∀ (st : ConvState) (j : Json) (sid bt et : Nat) (tx : String)
        (se : Bool) (m : String),
        (j.idxS "header" |>.idxS "event").as_str = some "result-generated" →
        (j.idxS "header" |>.idxS "task_id").as_str = some st.task_id →
        parseTranscriptionFields j = .ok (sid, bt, et, tx, se) →
        extractTranslationReceive j = .fatal m →
        receiveProcessText st j = .fatal m) ∧
    (∀ (tid : String) (r : List Transcription) (j : Json)
        (sid bt et : Nat) (tx : String) (se : Bool) (m : String),
        (j.idxS "header" |>.idxS "event").as_str = some "result-generated" →
        (j.idxS "header" |>.idxS "task_id").as_str = some tid →
        parseTranscriptionFields j = .ok (sid, bt, et, tx, se) →
        extractTranslationFinish j = .fatal m →
        finishProcessText tid r j = .fatal m) ∧
    (∀ (j : Json),
        (j.idxS "payload" |>.idxS "output"
            |>.idxS "transcription").as_object = none →
        parseTranscriptionFields j = .fatal "called unwrap on None") ∧
    (∀ (j : Json) (tj : List (String × Json)),
        (j.idxS "payload" |>.idxS "output"
            |>.idxS "transcription").as_object = some tj →
        tj.lookup "sentence_id" = none →
        parseTranscriptionFields j = .fatal "no entry found for key") ∧
    (∀ (j : Json) (tj : List (String × Json)) (v : Json),
        (j.idxS "payload" |>.idxS "output"
            |>.idxS "transcription").as_object = some tj →
        tj.lookup "sentence_id" = some v → v.as_u64 = none →
        parseTranscriptionFields j = .fatal "called unwrap on None") ∧
    (∀ (j : Json) (tj : List (String × Json)) (v : Json) (sid : Nat),
        (j.idxS "payload" |>.idxS "output"
            |>.idxS "transcription").as_object = some tj →
        tj.lookup "sentence_id" = some v → v.as_u64 = some sid →
        tj.lookup "begin_time" = none →
        parseTranscriptionFields j = .fatal "no entry found for key") ∧
    (∀ (j : Json) (tj : List (String × Json)) (v : Json) (sid : Nat)
        (w : Json),
        (j.idxS "payload" |>.idxS "output"
            |>.idxS "transcription").as_object = some tj →
        tj.lookup "sentence_id" = some v → v.as_u64 = some sid →
        tj.lookup "begin_time" = some w → w.as_u64 = none →
        parseTranscriptionFields j = .fatal "called unwrap on None") ∧
    (∀ (j : Json) (tj : List (String × Json)) (v : Json) (sid : Nat)
        (w : Json) (bt : Nat),
        (j.idxS "payload" |>.idxS "output"
            |>.idxS "transcription").as_object = some tj →
        tj.lookup "sentence_id" = some v → v.as_u64 = some sid →
        tj.lookup "begin_time" = some w → w.as_u64 = some bt →
        tj.lookup "end_time" = none →
        parseTranscriptionFields j = .fatal "no entry found for key") ∧
    (∀ (j : Json) (tj : List (String × Json)) (v : Json) (sid : Nat)
        (w : Json) (bt : Nat) (x : Json),
        (j.idxS "payload" |>.idxS "output"
            |>.idxS "transcription").as_object = some tj →
        tj.lookup "sentence_id" = some v → v.as_u64 = some sid →
        tj.lookup "begin_time" = some w → w.as_u64 = some bt →
        tj.lookup "end_time" = some x → x.as_u64 = none →
        parseTranscriptionFields j = .fatal "called unwrap on None") ∧
    (∀ (j : Json) (tj : List (String × Json)) (v : Json) (sid : Nat)
        (w : Json) (bt : Nat) (x : Json) (et : Nat),
        (j.idxS "payload" |>.idxS "output"
            |>.idxS "transcription").as_object = some tj →
        tj.lookup "sentence_id" = some v → v.as_u64 = some sid →
        tj.lookup "begin_time" = some w → w.as_u64 = some bt →
        tj.lookup "end_time" = some x → x.as_u64 = some et →
        tj.lookup "text" = none →
        parseTranscriptionFields j = .fatal "no entry found for key") ∧
    (∀ (j : Json) (tj : List (String × Json)) (v : Json) (sid : Nat)
        (w : Json) (bt : Nat) (x : Json) (et : Nat) (y : Json),
        (j.idxS "payload" |>.idxS "output"
            |>.idxS "transcription").as_object = some tj →
        tj.lookup "sentence_id" = some v → v.as_u64 = some sid →
        tj.lookup "begin_time" = some w → w.as_u64 = some bt →
        tj.lookup "end_time" = some x → x.as_u64 = some et →
        tj.lookup "text" = some y → y.as_str = none →
        parseTranscriptionFields j = .fatal "called unwrap on None") ∧
    (∀ (j : Json) (tj : List (String × Json)) (v : Json) (sid : Nat)
        (w : Json) (bt : Nat) (x : Json) (et : Nat) (y : Json)
        (tx : String),
        (j.idxS "payload" |>.idxS "output"
            |>.idxS "transcription").as_object = some tj →
        tj.lookup "sentence_id" = some v → v.as_u64 = some sid →
        tj.lookup "begin_time" = some w → w.as_u64 = some bt →
        tj.lookup "end_time" = some x → x.as_u64 = some et →
        tj.lookup "text" = some y → y.as_str = some tx →
        tj.lookup "sentence_end" = none →
        parseTranscriptionFields j = .fatal "no entry found for key") ∧
    (∀ (j : Json) (tj : List (String × Json)) (v : Json) (sid : Nat)
        (w : Json) (bt : Nat) (x : Json) (et : Nat) (y : Json)
        (tx : String) (z : Json),
        (j.idxS "payload" |>.idxS "output"
            |>.idxS "transcription").as_object = some tj →
        tj.lookup "sentence_id" = some v → v.as_u64 = some sid →
        tj.lookup "begin_time" = some w → w.as_u64 = some bt →
        tj.lookup "end_time" = some x → x.as_u64 = some et →
        tj.lookup "text" = some y → y.as_str = some tx →
        tj.lookup "sentence_end" = some z → z.as_bool = none →
        parseTranscriptionFields j =
          .fatal "Missing sentence_end in response") ∧
    (∀ (j : Json) (tr : List (String × Json)),
        (j.idxS "payload" |>.idxS "output"
            |>.idxS "translation").as_object = some tr →
        tr.lookup "text" = none →
        extractTranslationReceive j = .fatal "no entry found for key") ∧
    (∀ (j : Json) (tr : List (String × Json)) (v : Json),
        (j.idxS "payload" |>.idxS "output"
            |>.idxS "translation").as_object = some tr →
        tr.lookup "text" = some v → v.as_str = none →
        extractTranslationReceive j = .fatal "called unwrap on None") ∧
    (∀ (j : Json) (tr : List (String × Json)),
        ((j.idxS "payload" |>.idxS "output"
            |>.idxS "translations").idxN 0).as_object = some tr →
        tr.lookup "text" = none →
        extractTranslationFinish j = .fatal "no entry found for key") ∧
    (∀ (j : Json) (tr : List (String × Json)) (v : Json),
        ((j.idxS "payload" |>.idxS "output"
            |>.idxS "translations").idxN 0).as_object = some tr →
        tr.lookup "text" = some v → v.as_str = none →
        extractTranslationFinish j = .fatal "called unwrap on None") := by
  refine ⟨?_, ?_, ?_, ?_, ?_, ?_, ?_, ?_, ?_, ?_, ?_, ?_, ?_, ?_, ?_, ?_,
    ?_, ?_, ?_, ?_, ?_, ?_, ?_, ?_, ?_⟩
  · intro st j h
    simp only [receiveProcessText, h, okOr, resBind_def, resBind_err]
  · intro tid r j h
    simp only [finishProcessText, h, okOr, resBind_def, resBind_err]
  · intro wid j stream h
    simp only [startAckDrain, h]
  · intro st j e he ht
    simp only [receiveProcessText, he, ht, okOr, expectO, resBind_def,
      resBind_ok, resBind_fatal]
  · intro tid r j e he ht
    simp only [finishProcessText, he, ht, okOr, expectO, resBind_def,
      resBind_ok, resBind_fatal]
  · intro wid j stream e he ht
    simp only [startAckDrain, he, ht]
  · intro st j m he ht hp
    simp only [receiveProcessText, he, ht, hp, okOr, expectO, resBind_def,
      resBind_ok, resBind_fatal, beq_self_eq_true, Bool.and_self, if_true]
  · intro tid r j m he ht hp
    simp only [finishProcessText, he, ht, hp, okOr, expectO, resBind_def,
      resBind_ok, resBind_fatal, beq_self_eq_true, Bool.and_self, if_true]
  · intro st j sid bt et tx se m he ht hp hx
    simp only [receiveProcessText, he, ht, hp, hx, okOr, expectO,
      resBind_def, resBind_ok, resBind_fatal, beq_self_eq_true,
      Bool.and_self, if_true]
  · intro tid r j sid bt et tx se m he ht hp hx
    simp only [finishProcessText, he, ht, hp, hx, okOr, expectO,
      resBind_def, resBind_ok, resBind_fatal, beq_self_eq_true,
      Bool.and_self, if_true]
  · intro j h
    simp only [parseTranscriptionFields, h, expectO, resBind_def,
      resBind_fatal]
  · intro j tj hO h1
    simp only [parseTranscriptionFields, hO, h1, expectO, mapIdx,
      resBind_def, resBind_ok, resBind_fatal]
  · intro j tj v hO h1 h2
    simp only [parseTranscriptionFields, hO, h1, h2, expectO, mapIdx,
      resBind_def, resBind_ok, resBind_fatal]
  · intro j tj v sid hO h1 h2 h3
    simp only [parseTranscriptionFields, hO, h1, h2, h3, expectO, mapIdx,
      resBind_def, resBind_ok, resBind_fatal]
  · intro j tj v sid w hO h1 h2 h3 h4
    simp only [parseTranscriptionFields, hO, h1, h2, h3, h4, expectO,
      mapIdx, resBind_def, resBind_ok, resBind_fatal]
  · intro j tj v sid w bt hO h1 h2 h3 h4 h5
    simp only [parseTranscriptionFields, hO, h1, h2, h3, h4, h5, expectO,
      mapIdx, resBind_def, resBind_ok, resBind_fatal]
  · intro j tj v sid w bt x hO h1 h2 h3 h4 h5 h6
    simp only [parseTranscriptionFields, hO, h1, h2, h3, h4, h5, h6,
      expectO, mapIdx, resBind_def, resBind_ok, resBind_fatal]
  · intro j tj v sid w bt x et hO h1 h2 h3 h4 h5 h6 h7
    simp only [parseTranscriptionFields, hO, h1, h2, h3, h4, h5, h6, h7,
      expectO, mapIdx, resBind_def, resBind_ok, resBind_fatal]
  · intro j tj v sid w bt x et y hO h1 h2 h3 h4 h5 h6 h7 h8
    simp only [parseTranscriptionFields, hO, h1, h2, h3, h4, h5, h6, h7,
      h8, expectO, mapIdx, resBind_def, resBind_ok, resBind_fatal]
  · intro j tj v sid w bt x et y tx hO h1 h2 h3 h4 h5 h6 h7 h8 h9
    simp only [parseTranscriptionFields, hO, h1, h2, h3, h4, h5, h6, h7,
      h8, h9, expectO, mapIdx, resBind_def, resBind_ok, resBind_fatal]
  · intro j tj v sid w bt x et y tx z hO h1 h2 h3 h4 h5 h6 h7 h8 h9 h10
    simp only [parseTranscriptionFields, hO, h1, h2, h3, h4, h5, h6, h7,
      h8, h9, h10, expectO, mapIdx, resBind_def, resBind_ok, resBind_fatal]
  · intro j tr hO h1
    simp only [extractTranslationReceive, hO, h1, mapIdx, expectO,
      resBind_def, resBind_ok, resBind_fatal]
  · intro j tr v hO h1 h2
    simp only [extractTranslationReceive, hO, h1, h2, mapIdx, expectO,
      resBind_def, resBind_ok, resBind_fatal]
  · intro j tr hO h1
    simp only [extractTranslationFinish, hO, h1, mapIdx, expectO,
      resBind_def, resBind_ok, resBind_fatal]
  · intro j tr v hO h1 h2
    simp only [extractTranslationFinish, hO, h1, h2, mapIdx, expectO,
      resBind_def, resBind_ok, resBind_fatal]

/-- C6 witness: the amended theorem applied to concrete frames — no event
kind, no task id (in `receive` and in the `start` loop), a missing and a
wrongly-typed sentence index, a missing begin time, a wrongly-typed
sentence_end, a translation object without text (both extractors), and
the propagation of a parse abort through `receive` and the drain loop of
`finish`. -/
theorem C6_malformed_field_handling_witness :
    receiveProcessText ⟨"T", [], false⟩ Json.null =
      .err "Invalid response format" ∧
    receiveProcessText ⟨"T", [], false⟩ noTaskIdFrame =
      .fatal "Missing task_id in response" ∧
    startAckDrain "T1" [Frame.text noTaskIdFrame] =
      .fatal "Missing task_id in response" ∧
    parseTranscriptionFields (resultFrameWithTj "T" []) =
      .fatal "no entry found for key" ∧
    receiveProcessText ⟨"T", [], false⟩ (resultFrameWithTj "T" []) =
      .fatal "no entry found for key" ∧
    finishProcessText "T" [] (resultFrameWithTj "T" []) =
      .fatal "no entry found for key" ∧
    parseTranscriptionFields
        (resultFrameWithTj "T" [("sentence_id", Json.str "x")]) =
      .fatal "called unwrap on None" ∧
    parseTranscriptionFields
        (resultFrameWithTj "T" [("sentence_id", Json.num 0)]) =
      .fatal "no entry found for key" ∧
    parseTranscriptionFields
        (resultFrameWithTj "T"
          [("sentence_id", Json.num 0), ("begin_time", Json.num 1),
           ("end_time", Json.num 2), ("text", Json.str "a"),
           ("sentence_end", Json.num 1)]) =
      .fatal "Missing sentence_end in response" ∧
    extractTranslationReceive
        (outputOnlyJson [("translation", Json.obj [])]) =
      .fatal "no entry found for key" ∧
    extractTranslationFinish
        (outputOnlyJson [("translations", Json.arr [Json.obj []])]) =
      .fatal "no entry found for key" := by
  obtain ⟨h1, h2, h3, h4, h5, h6, h7, h8, h9, h10, h11, h12, h13, h14,
    h15, h16, h17, h18, h19, h20, h21, h22, h23, h24, h25⟩ :=
    C6_malformed_field_handling_amended
  refine ⟨h1 ⟨"T", [], false⟩ Json.null rfl,
    h4 ⟨"T", [], false⟩ noTaskIdFrame "task-started" rfl rfl,
    h6 "T1" noTaskIdFrame [] "task-started" rfl rfl,
    h12 (resultFrameWithTj "T" []) [] rfl rfl,
    h7 ⟨"T", [], false⟩ (resultFrameWithTj "T" []) _ rfl rfl
      (h12 (resultFrameWithTj "T" []) [] rfl rfl),
    h8 "T" [] (resultFrameWithTj "T" []) _ rfl rfl
      (h12 (resultFrameWithTj "T" []) [] rfl rfl),
    h13 (resultFrameWithTj "T" [("sentence_id", Json.str "x")])
      [("sentence_id", Json.str "x")] (Json.str "x") rfl rfl rfl,
    h14 (resultFrameWithTj "T" [("sentence_id", Json.num 0)])
      [("sentence_id", Json.num 0)] (Json.num 0) 0 rfl rfl rfl rfl,
    h21 (resultFrameWithTj "T"
        [("sentence_id", Json.num 0), ("begin_time", Json.num 1),
         ("end_time", Json.num 2), ("text", Json.str "a"),
         ("sentence_end", Json.num 1)])
      [("sentence_id", Json.num 0), ("begin_time", Json.num 1),
       ("end_time", Json.num 2), ("text", Json.str "a"),
       ("sentence_end", Json.num 1)]
      (Json.num 0) 0 (Json.num 1) 1 (Json.num 2) 2 (Json.str "a") "a"
      (Json.num 1) rfl rfl rfl rfl rfl rfl rfl rfl rfl rfl rfl,
    h22 (outputOnlyJson [("translation", Json.obj [])]) [] rfl rfl,
    h24 (outputOnlyJson [("translations", Json.arr [Json.obj []])]) []
      rfl rfl⟩

/-- C5 amended: the two folding paths share the transcription parsing and
the accumulator fold, and differ only in the translation extraction
(`receive` reads `payload.output.translation` as an object, the drain
loop of `finish` reads `payload.output.translations[0]`): whenever the
two extractions agree on a frame — in particular whenever the frame
carries no translation under either key — the two paths produce the same
accumulator and the same finished flag from the same prior state. -/
theorem C5_fold_agreement_amended :
    ∀ (tid : String) (r : List Transcription) (j : Json),
      extractTranslationReceive j = extractTranslationFinish j →
      receiveProcessText ⟨tid, r, false⟩ j =
        Res.map (fun p => ConvState.mk tid p.1 p.2)
          (finishProcessText tid r j) := by
  intro tid r j hext
  cases hE : (j.idxS "header" |>.idxS "event").as_str with
  | none =>
    simp only [receiveProcessText, finishProcessText, hE, okOr,
      resBind_def, resBind_err, Res.map]
  | some event =>
    cases hT : (j.idxS "header" |>.idxS "task_id").as_str with
    | none =>
      simp only [receiveProcessText, finishProcessText, hE, hT, okOr,
        expectO, resBind_def, resBind_ok, resBind_fatal, Res.map]
    | some tidr =>
      simp only [receiveProcessText, finishProcessText, hE, hT, okOr,
        expectO, resBind_def, resBind_ok, hext]
      by_cases hc : (event == "result-generated" && tidr == tid) = true
      · simp only [hc, if_true]
        cases hp : parseTranscriptionFields j with
        | err e => simp [hp, Res.bind, Res.map]
        | fatal e => simp [hp, Res.bind, Res.map]
        | ok tup =>
          obtain ⟨sid, bt, et, tx, se⟩ := tup
          cases hx : extractTranslationFinish j with
          | err e => simp [hp, hx, Res.bind, Res.map]
          | fatal e => simp [hp, hx, Res.bind, Res.map]
          | ok trt =>
            have hev : event = "result-generated" := by
              rw [Bool.and_eq_true] at hc
              exact eq_of_beq hc.1
            subst hev
            have hne :
                (("result-generated" : String) == "task-finished") = false :=
              rfl
            simp [hp, hx, hne, Res.bind, Res.map, resPure_def]
      · simp only [hc, if_false, Bool.not_eq_true]
        by_cases hc2 : (event == "task-finished" && tidr == tid) = true
        · simp [hc2, Res.bind, Res.map, resPure_def]
        · simp [hc2, Res.bind, Res.map, resPure_def]

/-- C5 witness: the amended theorem applied to a frame that carries no
translation under either key, where both extractions are `.ok none`. -/
theorem C5_fold_agreement_witness :
    receiveProcessText ⟨"T", [], false⟩
        (resultFrame "T" 0 0 10 "hi" false []) =
      Res.map (fun p => ConvState.mk "T" p.1 p.2)
        (finishProcessText "T" [] (resultFrame "T" 0 0 10 "hi" false [])) :=
  C5_fold_agreement_amended "T" [] (resultFrame "T" 0 0 10 "hi" false []) rfl

/-! ## C10 -/

/-- The fold either keeps the length (in-place overwrite) or grows it by
exactly one (push). -/
theorem applyUpdate_length (r : List Transcription) (i : Nat)
    (t : Transcription) :
    (applyUpdate r i t).length =
      if i < r.length then r.length else r.length + 1 := by
  by_cases h : i < r.length <;> simp [applyUpdate, h]

/-- A successful `receive`-side fold of one text frame leaves the
accumulator unchanged or rewrites it through one `applyUpdate`. -/
theorem receiveProcessText_ok_result (st : ConvState) (j : Json)
    (st1 : ConvState) (h : receiveProcessText st j = .ok st1) :
    st1.result = st.result ∨
      ∃ i t, st1.result = applyUpdate st.result i t := by
  unfold receiveProcessText at h
  obtain ⟨event, hE, h⟩ := resBind_eq_ok h
  obtain ⟨tidr, hT, h⟩ := resBind_eq_ok h
  dsimp only [] at h
  by_cases hc : (event == "result-generated" && tidr == st.task_id) = true
  · rw [if_pos hc] at h
    obtain ⟨tup, hPp, h⟩ := resBind_eq_ok h
    obtain ⟨sid, bt, et, tx, se⟩ := tup
    dsimp only [] at h
    obtain ⟨trt, hXx, h⟩ := resBind_eq_ok h
    obtain ⟨st2, hy, h⟩ := resBind_eq_ok h
    rw [resPure_def] at hy
    cases hy
    right
    refine ⟨sid, ⟨bt, et, tx, trt⟩, ?_⟩
    by_cases hc2 : (event == "task-finished" && tidr == st.task_id) = true
    · rw [if_pos hc2, resPure_def] at h
      cases h
      rfl
    · rw [if_neg hc2, resPure_def] at h
      cases h
      rfl
  · rw [if_neg hc] at h
    obtain ⟨st2, hy, h⟩ := resBind_eq_ok h
    rw [resPure_def] at hy
    cases hy
    left
    by_cases hc2 : (event == "task-finished" && tidr == st.task_id) = true
    · rw [if_pos hc2, resPure_def] at h
      cases h
      rfl
    · rw [if_neg hc2, resPure_def] at h
      cases h
      rfl

/-- A successful `finish`-side fold of one text frame leaves the
accumulator unchanged or rewrites it through one `applyUpdate`. -/
theorem finishProcessText_ok_result (tid : String)
    (r : List Transcription) (j : Json) (r1 : List Transcription) (b : Bool)
    (h : finishProcessText tid r j = .ok (r1, b)) :
    r1 = r ∨ ∃ i t, r1 = applyUpdate r i t := by
  unfold finishProcessText at h
  obtain ⟨event, hE, h⟩ := resBind_eq_ok h
  obtain ⟨tidr, hT, h⟩ := resBind_eq_ok h
  dsimp only [] at h
  by_cases hc : (event == "result-generated" && tidr == tid) = true
  · rw [if_pos hc] at h
    obtain ⟨tup, hPp, h⟩ := resBind_eq_ok h
    obtain ⟨sid, bt, et, tx, se⟩ := tup
    dsimp only [] at h
    obtain ⟨trt, hXx, h⟩ := resBind_eq_ok h
    obtain ⟨r2, hy, h⟩ := resBind_eq_ok h
    rw [resPure_def] at hy
    cases hy
    right
    refine ⟨sid, ⟨bt, et, tx, trt⟩, ?_⟩
    by_cases hc2 : (event == "task-finished" && tidr == tid) = true
    · rw [if_pos hc2, resPure_def] at h
      cases h
      rfl
    · rw [if_neg hc2, resPure_def] at h
      cases h
      rfl
  · rw [if_neg hc] at h
    obtain ⟨r2, hy, h⟩ := resBind_eq_ok h
    rw [resPure_def] at hy
    cases hy
    left
    by_cases hc2 : (event == "task-finished" && tidr == tid) = true
    · rw [if_pos hc2, resPure_def] at h
      cases h
      rfl
    · rw [if_neg hc2, resPure_def] at h
      cases h
      rfl

/-- One fold step never shrinks the accumulator. -/
theorem applyUpdate_le_length (r : List Transcription) (i : Nat)
    (t : Transcription) : r.length ≤ (applyUpdate r i t).length := by
  rw [applyUpdate_length]
  split <;> omega

/-- The drain loop of `finish` never shrinks the accumulator. -/
theorem finishDrain_le_length (tid : String) :
    ∀ (stream : List Frame) (r r1 : List Transcription) (b : Bool)
      (rest : List Frame),
      finishDrain tid r stream = .ok (r1, b, rest) →
      r.length ≤ r1.length := by
  intro stream
  induction stream with
  | nil =>
    intro r r1 b rest h
    unfold finishDrain at h
    cases h
    exact Nat.le_refl _
  | cons f tail ih =>
    intro r r1 b rest h
    cases f with
    | text response =>
      unfold finishDrain at h
      dsimp only [] at h
      cases hp : finishProcessText tid r response with
      | ok p =>
        obtain ⟨r2, b2⟩ := p
        rw [hp] at h
        have hstep : r.length ≤ r2.length := by
          rcases finishProcessText_ok_result tid r response r2 b2 hp with
            h1 | ⟨i, t, h2⟩
          · rw [h1]
          · rw [h2]
            exact applyUpdate_le_length r i t
        cases b2 with
        | true =>
          dsimp only [] at h
          cases h
          exact hstep
        | false =>
          dsimp only [] at h
          exact Nat.le_trans hstep (ih r2 r1 b rest h)
      | err e => rw [hp] at h; cases h
      | fatal e => rw [hp] at h; cases h
    | badText =>
      unfold finishDrain at h
      dsimp only [] at h
      cases h
    | binary =>
      unfold finishDrain at h
      dsimp only [] at h
      exact ih r r1 b rest h
    | errFrame e =>
      unfold finishDrain at h
      dsimp only [] at h
      cases h

/-- C10: within one task the accumulator only grows and entries never
move: each folded event either overwrites exactly one existing position
in place (all other positions unchanged) or appends exactly one entry at
the current end (all existing positions unchanged); a successful
`receive` call never shrinks the accumulator and grows it by at most one
entry; a successful `finish` call never shrinks it. -/
theorem C10_accumulator_monotone :
    (∀ (r : List Transcription) (i : Nat) (t : Transcription),
        (i < r.length ∧ applyUpdate r i t = r.set i t ∧
          (applyUpdate r i t).length = r.length ∧
          ∀ k, k ≠ i → (applyUpdate r i t)[k]? = r[k]?) ∨
        (r.length ≤ i ∧ applyUpdate r i t = r ++ [t] ∧
          (applyUpdate r i t).length = r.length + 1 ∧
          ∀ k, k < r.length → (applyUpdate r i t)[k]? = r[k]?)) ∧
    (∀ st stream snap st1 rest,
        receive st stream = .ok (snap, st1, rest) →
        st.result.length ≤ st1.result.length ∧
        st1.result.length ≤ st.result.length + 1) ∧
    (∀ st stream fs rest,
        finish st stream = .ok (fs, rest) →
        st.result.length ≤ fs.result.length) := by
  refine ⟨?_, ?_, ?_⟩
  · intro r i t
    by_cases h : i < r.length
    · left
      refine ⟨h, by simp [applyUpdate, h], by simp [applyUpdate, h], ?_⟩
      intro k hk
      simp [applyUpdate, h, List.getElem?_set_ne (Ne.symm hk)]
    · right
      refine ⟨Nat.le_of_not_lt h, by simp [applyUpdate, h],
        by simp [applyUpdate, h], ?_⟩
      intro k hk
      simp [applyUpdate, h, List.getElem?_append_left hk]
  · intro st stream snap st1 rest h
    unfold receive at h
    by_cases hf : st.finished = true
    · rw [if_pos hf] at h
      cases h
      exact ⟨Nat.le_refl _, Nat.le_succ _⟩
    · rw [if_neg hf] at h
      cases stream with
      | nil =>
        cases h
        exact ⟨Nat.le_refl _, Nat.le_succ _⟩
      | cons f rest2 =>
        cases f with
        | text response =>
          dsimp only [] at h
          cases hp : receiveProcessText st response with
          | ok st2 =>
            rw [hp] at h
            dsimp only [] at h
            cases h
            rcases receiveProcessText_ok_result st response _ hp with
              h1 | ⟨i, t, h2⟩
            · rw [h1]
              exact ⟨Nat.le_refl _, Nat.le_succ _⟩
            · rw [h2, applyUpdate_length]
              constructor <;> split <;> omega
          | err e => rw [hp] at h; cases h
          | fatal e => rw [hp] at h; cases h
        | badText => cases h
        | binary =>
          dsimp only [] at h
          cases h
          exact ⟨Nat.le_refl _, Nat.le_succ _⟩
        | errFrame e => cases h
  · intro st stream fs rest h
    unfold finish at h
    by_cases hf : st.finished = true
    · rw [if_pos hf] at h
      cases h
      exact Nat.le_refl _
    · rw [if_neg hf] at h
      cases hd : finishDrain st.task_id st.result stream with
      | ok tri =>
        obtain ⟨r1, b, rest1⟩ := tri
        rw [hd] at h
        dsimp only [] at h
        cases h
        exact finishDrain_le_length st.task_id stream st.result _ b _ hd
      | err e => rw [hd] at h; cases h
      | fatal e => rw [hd] at h; cases h

/-- C10 witness: the monotonicity bounds applied to a concrete `receive`
call folding one appended entry and a concrete `finish` call that sees
only the terminal event. -/
theorem C10_accumulator_monotone_witness :
    (([] : List Transcription).length ≤
        ([⟨0, 9, "x", none⟩] : List Transcription).length ∧
      ([⟨0, 9, "x", none⟩] : List Transcription).length ≤
        ([] : List Transcription).length + 1) ∧
    ([] : List Transcription).length ≤ ([] : List Transcription).length :=
  ⟨C10_accumulator_monotone.2.1 ⟨"T", [], false⟩
      [Frame.text (resultFrame "T" 0 0 9 "x" false [])]
      [⟨0, 9, "x", none⟩] ⟨"T", [⟨0, 9, "x", none⟩], false⟩ [] rfl,
   C10_accumulator_monotone.2.2 ⟨"T", [], false⟩
      [Frame.text (eventFrame "task-finished" "T")] ⟨"T", []⟩ [] rfl⟩
